import Mathlib

/-!
Verification of `src/interface/components/Footer.tsx` of julialiu23/passport-scorer.

The component is a pure function from a display mode, an optional CSS class
and a process-wide commit-hash configuration value to a markup tree.  We
embed the JSX output as an inductive `Node` tree and the helper `getAssets`
as a Lean function, translating the TypeScript directly.

Two identifiers used by `Footer.tsx` live in files that are not part of the
supplied sources:
* `UIMode` (from `../utils/dark-mode`) — the claims and the spec quantify
  over "any string or undefined", so `mode` is embedded as `Option String`;
* `PAGE_PADDING` (from `./PageLayout`) — the spec treats it as an opaque
  style-token string constant, so the rendering functions abstract over its
  value via an explicit `pagePadding : String` argument; every theorem below
  holds for every possible value of that constant.
-/

namespace PassportScorer

/-- JavaScript template-literal interpolation of a `string | undefined`
value: `undefined` stringifies to the literal text `"undefined"`, a string
interpolates verbatim.  Used for `${className}` and
`${process.env.NEXT_PUBLIC_GIT_COMMIT_HASH}` in `Footer.tsx`. -/
def jsInterp : Option String → String
  | none => "undefined"
  | some s => s

/-- The record returned by `getAssets` in `Footer.tsx` (the spec's
`AssetBundle`). -/
structure Assets where
  emphasisColor : String
  docsIcon : String
  githubLogo : String
deriving DecidableEq, Repr

/-- Embedding of `getAssets` (`Footer.tsx` lines 5–16):
`darkMode = mode === "dark"`, selecting between the two colour/icon
variants. -/
def getAssets (mode : Option String) : Assets :=
  let darkMode := mode == some "dark"
  { emphasisColor := if darkMode then "white" else "black"
    docsIcon := if darkMode then "/assets/docsIconLight.svg" else "/assets/docsIconDark.svg"
    githubLogo := if darkMode then "/assets/githubLogoLight.svg" else "/assets/githubLogoDark.svg" }

/-- Markup tree: an element with a tag, an attribute list and children, or a
text node.  This is the shape of the JSX value returned by `Footer`. -/
inductive Node where
  | elem (tag : String) (attrs : List (String × String)) (children : List Node)
  | text (s : String)

/-- Value of the attribute named `name` in an attribute list (first match). -/
def attrVal (name : String) (attrs : List (String × String)) : Option String :=
  (attrs.find? fun p => p.1 == name).map Prod.snd

mutual

/-- All values of the attribute named `name` in a markup tree, in document
(preorder) order. -/
def attrsOf (name : String) : Node → List String
  | .text _ => []
  | .elem _ attrs children => (attrVal name attrs).toList ++ attrsOfList name children

/-- `attrsOf` over a forest. -/
def attrsOfList (name : String) : List Node → List String
  | [] => []
  | n :: ns => attrsOf name n ++ attrsOfList name ns

end

mutual

/-- All text contents of a markup tree, in document order. -/
def texts : Node → List String
  | .text s => [s]
  | .elem _ _ children => textsList children

/-- `texts` over a forest. -/
def textsList : List Node → List String
  | [] => []
  | n :: ns => texts n ++ textsList ns

end

mutual

/-- All element tags of a markup tree in document (preorder) order: the
layout structure with attributes and text erased. -/
def tags : Node → List String
  | .text _ => []
  | .elem t _ children => t :: tagsList children

/-- `tags` over a forest. -/
def tagsList : List Node → List String
  | [] => []
  | n :: ns => tags n ++ tagsList ns

end

/-- Attribute of the root element of a markup tree. -/
def rootAttr (name : String) : Node → Option String
  | .text _ => none
  | .elem _ attrs _ => attrVal name attrs

/-- The `i`-th child of the root element. -/
def child? (i : Nat) : Node → Option Node
  | .text _ => none
  | .elem _ _ children => children[i]?

/-- The root element's style-class attribute value built by the template
literal on `Footer.tsx` line 28:
`` `flex h-[120px] items-center justify-between text-base ${PAGE_PADDING} ${className}` ``. -/
def rootClassName (pagePadding : String) (className : Option String) : String :=
  "flex h-[120px] items-center justify-between text-base " ++ pagePadding ++ " "
    ++ jsInterp className

/-- The commit-link URL built by the template literal on `Footer.tsx`
line 43:
`` `https://github.com/gitcoinco/passport-scorer/commit/${process.env.NEXT_PUBLIC_GIT_COMMIT_HASH}` ``. -/
def commitHref (commitHash : Option String) : String :=
  "https://github.com/gitcoinco/passport-scorer/commit/" ++ jsInterp commitHash

/-- The trailing segment of a URL: the characters after the last '/' (the
whole string when it has no '/').  Used to state what the final path
segment of the commit link is. -/
def trailingSegment (s : String) : String :=
  String.mk ((s.data.reverse.takeWhile fun c => c ≠ '/').reverse)

/-- The JSX tree returned by `Footer` (`Footer.tsx` lines 26–68), as a
function of the already-derived asset bundle.  Attribute lists and children
follow the source element by element. -/
def renderWithAssets (assets : Assets) (pagePadding : String)
    (className : Option String) (commitHash : Option String) : Node :=
  Node.elem "div" [("className", rootClassName pagePadding className)]
    [ Node.elem "div" [("className", "text-purple-softpurple")]
        [ Node.text "Available on"
        , Node.elem "a"
            [ ("href", "https://ceramic.network/")
            , ("target", "_blank")
            , ("rel", "noopener noreferrer")
            , ("className", "text-" ++ assets.emphasisColor ++ " ml-1 hover:underline") ]
            [ Node.elem "span" [("className", "text-purple-darkpurple")]
                [Node.text "Ceramic."] ] ]
    , Node.elem "div" [("className", "flex")]
        [ Node.elem "a"
            [ ("href", commitHref commitHash)
            , ("target", "_blank")
            , ("rel", "noopener noreferrer")
            , ("className", "mr-8 text-purple-darkpurple") ]
            [Node.text "Git commit"]
        , Node.elem "a"
            [ ("href", "https://github.com/gitcoinco/passport")
            , ("target", "_blank")
            , ("rel", "noopener noreferrer")
            , ("className", "mr-8") ]
            [Node.elem "img" [("src", assets.githubLogo), ("alt", "Github Logo")] []]
        , Node.elem "a"
            [ ("href", "https://docs.passport.gitcoin.co/building-with-passport/quick-start-guide")
            , ("target", "_blank")
            , ("rel", "noopener noreferrer")
            , ("className", "") ]
            [Node.elem "img" [("src", assets.docsIcon), ("alt", "Docs Icon")] []] ] ]

/-- Embedding of the `Footer` component (`Footer.tsx` lines 23–69): derive
the asset bundle from `mode` (the `useMemo` body), then render.  The
process-wide commit-hash configuration value is passed explicitly. -/
def Footer (pagePadding : String) (mode className commitHash : Option String) : Node :=
  renderWithAssets (getAssets mode) pagePadding className commitHash

/-- Model of the `useMemo` cache on `Footer.tsx` line 24: if the cached
dependency key equals the current `mode`, the cached bundle is reused,
otherwise `getAssets` recomputes. -/
def memoAssets (cache : Option (Option String × Assets)) (mode : Option String) : Assets :=
  match cache with
  | some (key, value) => if key == mode then value else getAssets mode
  | none => getAssets mode

/-- Claim C1: for every mode value not equal to "dark" (including undefined,
"light", or any other string) and for any className, the rendered output has
emphasis color "black", github logo path "/assets/githubLogoDark.svg", and
docs icon path "/assets/docsIconDark.svg" (the light-variant values). -/
theorem footer_nondark_uses_light_variant
    (pagePadding : String) (mode className commitHash : Option String)
    (hm : mode ≠ some "dark") :
    (getAssets mode).emphasisColor = "black"
    ∧ (getAssets mode).githubLogo = "/assets/githubLogoDark.svg"
    ∧ (getAssets mode).docsIcon = "/assets/docsIconDark.svg"
    ∧ attrsOf "src" (Footer pagePadding mode className commitHash)
        = ["/assets/githubLogoDark.svg", "/assets/docsIconDark.svg"]
    ∧ "text-black ml-1 hover:underline"
        ∈ attrsOf "className" (Footer pagePadding mode className commitHash) := by
  have hb : (mode == some "dark") = false := beq_eq_false_iff_ne.mpr hm
  refine ⟨?_, ?_, ?_, ?_, ?_⟩ <;>
    simp [getAssets, Footer, renderWithAssets, attrsOf, attrsOfList, attrVal, hb]

/-- Witness for C1 at the concrete input `mode = none` (undefined). -/
theorem footer_nondark_uses_light_variant_witness :
    (none : Option String) ≠ some "dark"
    ∧ ((getAssets (none : Option String)).emphasisColor = "black"
       ∧ (getAssets (none : Option String)).githubLogo = "/assets/githubLogoDark.svg"
       ∧ (getAssets (none : Option String)).docsIcon = "/assets/docsIconDark.svg"
       ∧ attrsOf "src" (Footer "px-20" none none none)
           = ["/assets/githubLogoDark.svg", "/assets/docsIconDark.svg"]
       ∧ "text-black ml-1 hover:underline" ∈ attrsOf "className" (Footer "px-20" none none none)) :=
  ⟨by decide, footer_nondark_uses_light_variant "px-20" none none none (by decide)⟩

/-- Claim C2: for mode = "dark", the rendered emphasis color and both icon
paths equal the dark-variant values exactly (white, the two Light.svg
asset paths, per the spec's dark-mode example). -/
theorem footer_dark_uses_dark_variant
    (pagePadding : String) (className commitHash : Option String) :
    (getAssets (some "dark")).emphasisColor = "white"
    ∧ (getAssets (some "dark")).docsIcon = "/assets/docsIconLight.svg"
    ∧ (getAssets (some "dark")).githubLogo = "/assets/githubLogoLight.svg"
    ∧ attrsOf "src" (Footer pagePadding (some "dark") className commitHash)
        = ["/assets/githubLogoLight.svg", "/assets/docsIconLight.svg"]
    ∧ "text-white ml-1 hover:underline"
        ∈ attrsOf "className" (Footer pagePadding (some "dark") className commitHash) := by
  refine ⟨rfl, rfl, rfl, rfl, ?_⟩
  simp [Footer, renderWithAssets, getAssets, attrsOf, attrsOfList, attrVal]

/-- Claim C3: for the call render("dark", "extra-class"), the root element's
class list includes "extra-class" (it is the final space-separated token of
the class attribute), the emphasis color is "white", the github logo path is
"/assets/githubLogoLight.svg", and the docs icon path is
"/assets/docsIconLight.svg". -/
theorem footer_dark_extra_class_example (pagePadding : String) (commitHash : Option String) :
    rootAttr "className" (Footer pagePadding (some "dark") (some "extra-class") commitHash)
      = some ("flex h-[120px] items-center justify-between text-base "
          ++ pagePadding ++ " " ++ "extra-class")
    ∧ (∃ pre, rootAttr "className"
          (Footer pagePadding (some "dark") (some "extra-class") commitHash)
          = some (pre ++ " extra-class"))
    ∧ (getAssets (some "dark")).emphasisColor = "white"
    ∧ "text-white ml-1 hover:underline" ∈ attrsOf "className"
        (Footer pagePadding (some "dark") (some "extra-class") commitHash)
    ∧ attrsOf "src" (Footer pagePadding (some "dark") (some "extra-class") commitHash)
        = ["/assets/githubLogoLight.svg", "/assets/docsIconLight.svg"] := by
  refine ⟨rfl, ?_, rfl, ?_, rfl⟩
  · refine ⟨"flex h-[120px] items-center justify-between text-base " ++ pagePadding, ?_⟩
    simp [Footer, renderWithAssets, rootAttr, attrVal, rootClassName, jsInterp,
      String.append_assoc]
  · simp [Footer, renderWithAssets, getAssets, attrsOf, attrsOfList, attrVal]

/-- Counterexample to claim C4: when the commit-hash configuration value is
undefined, JavaScript template-literal interpolation renders the literal
text "undefined", so the URL's trailing segment is "undefined", not an
empty segment. -/
theorem commitHref_undefined_segment_cex :
    commitHref none = "https://github.com/gitcoinco/passport-scorer/commit/undefined"
    ∧ trailingSegment (commitHref none) = "undefined"
    ∧ ¬ trailingSegment (commitHref none) = "" := by
  refine ⟨rfl, by decide, by decide⟩

/-- Claim C4 as amended: for every defined commit-hash string s the
commit-link URL ends with exactly s (the empty string yielding a trailing
empty segment), while an undefined value yields a URL ending in the literal
segment "undefined"; in no case is an exception thrown (the derivation is a
total function). -/
theorem commitHref_suffix_amended (s : String) :
    commitHref (some s) = "https://github.com/gitcoinco/passport-scorer/commit/" ++ s
    ∧ commitHref none = "https://github.com/gitcoinco/passport-scorer/commit/undefined"
    ∧ trailingSegment (commitHref (some "")) = "" :=
  ⟨rfl, rfl, by decide⟩

/-- Claim C5: for every provided className string, the className value
appears verbatim at the end of the root element's style-class attribute,
after the fixed base classes and the layout padding token. -/
theorem footer_className_verbatim
    (pagePadding className : String) (mode commitHash : Option String) :
    rootAttr "className" (Footer pagePadding mode (some className) commitHash)
      = some ("flex h-[120px] items-center justify-between text-base "
          ++ pagePadding ++ " " ++ className) := rfl

/-- Claim C6: the render function is total over its entire input domain —
for every mode, className and commit-hash configuration value it produces a
markup tree (a root div element); the embedding is a total Lean function
because the source performs only template-literal string interpolation and
field selection, neither of which can throw. -/
theorem footer_total (pagePadding : String) (mode className commitHash : Option String) :
    ∃ attrs children,
      Footer pagePadding mode className commitHash = Node.elem "div" attrs children :=
  ⟨_, _, rfl⟩

/-- Claim C7: the asset-bundle derivation is deterministic — any two
invocations with the same mode yield identical AssetBundle records, and the
useMemo cache keyed on mode returns that same record. -/
theorem getAssets_deterministic (m₁ m₂ : Option String) (hm : m₁ = m₂) :
    getAssets m₁ = getAssets m₂
    ∧ memoAssets (some (m₁, getAssets m₁)) m₂ = getAssets m₂ := by
  subst hm
  exact ⟨rfl, by simp [memoAssets]⟩

/-- Witness for C7 at the concrete mode value "dark". -/
theorem getAssets_deterministic_witness :
    (some "dark" : Option String) = some "dark"
    ∧ (getAssets (some "dark") = getAssets (some "dark")
       ∧ memoAssets (some (some "dark", getAssets (some "dark"))) (some "dark")
           = getAssets (some "dark")) :=
  ⟨rfl, getAssets_deterministic (some "dark") (some "dark") rfl⟩

/-- Claim C8: for every input, the right region (second child of the root)
contains, in fixed order, the commit link whose URL incorporates the
commit-hash configuration value, the icon-only repository link with the
derived github logo, and the icon-only documentation link with the derived
docs icon; all four anchors (left-region link included) carry
target="_blank" and rel="noopener noreferrer". -/
theorem footer_right_region_structure
    (pagePadding : String) (mode className commitHash : Option String) :
    child? 1 (Footer pagePadding mode className commitHash)
      = some (Node.elem "div" [("className", "flex")]
          [ Node.elem "a"
              [ ("href", commitHref commitHash)
              , ("target", "_blank")
              , ("rel", "noopener noreferrer")
              , ("className", "mr-8 text-purple-darkpurple") ]
              [Node.text "Git commit"]
          , Node.elem "a"
              [ ("href", "https://github.com/gitcoinco/passport")
              , ("target", "_blank")
              , ("rel", "noopener noreferrer")
              , ("className", "mr-8") ]
              [Node.elem "img"
                [("src", (getAssets mode).githubLogo), ("alt", "Github Logo")] []]
          , Node.elem "a"
              [ ("href", "https://docs.passport.gitcoin.co/building-with-passport/quick-start-guide")
              , ("target", "_blank")
              , ("rel", "noopener noreferrer")
              , ("className", "") ]
              [Node.elem "img"
                [("src", (getAssets mode).docsIcon), ("alt", "Docs Icon")] []] ])
    ∧ attrsOf "target" (Footer pagePadding mode className commitHash)
        = ["_blank", "_blank", "_blank", "_blank"]
    ∧ attrsOf "rel" (Footer pagePadding mode className commitHash)
        = ["noopener noreferrer", "noopener noreferrer",
           "noopener noreferrer", "noopener noreferrer"] :=
  ⟨rfl, rfl, rfl⟩

/-- Claim C9: the mode input influences only the derived asset values — for
any two modes and fixed className and commit hash, all hrefs, all
target/rel attributes, all img alt texts, all link/text contents, the tag
structure, and the root class attribute are identical between the two
renders. -/
theorem footer_mode_affects_only_variant
    (pagePadding : String) (m₁ m₂ className commitHash : Option String) :
    attrsOf "href" (Footer pagePadding m₁ className commitHash)
      = attrsOf "href" (Footer pagePadding m₂ className commitHash)
    ∧ attrsOf "target" (Footer pagePadding m₁ className commitHash)
        = attrsOf "target" (Footer pagePadding m₂ className commitHash)
    ∧ attrsOf "rel" (Footer pagePadding m₁ className commitHash)
        = attrsOf "rel" (Footer pagePadding m₂ className commitHash)
    ∧ attrsOf "alt" (Footer pagePadding m₁ className commitHash)
        = attrsOf "alt" (Footer pagePadding m₂ className commitHash)
    ∧ texts (Footer pagePadding m₁ className commitHash)
        = texts (Footer pagePadding m₂ className commitHash)
    ∧ tags (Footer pagePadding m₁ className commitHash)
        = tags (Footer pagePadding m₂ className commitHash)
    ∧ rootAttr "className" (Footer pagePadding m₁ className commitHash)
        = rootAttr "className" (Footer pagePadding m₂ className commitHash) :=
  ⟨rfl, rfl, rfl, rfl, rfl, rfl, rfl⟩

/-- Claim C10: when className is omitted (undefined), the template literal
stringifies it to "undefined", so the root element's style-class attribute
is the fixed base classes, the padding token, then the literal substring
"undefined". -/
theorem footer_omitted_className_literal_undefined
    (pagePadding : String) (mode commitHash : Option String) :
    rootAttr "className" (Footer pagePadding mode none commitHash)
      = some ("flex h-[120px] items-center justify-between text-base "
          ++ pagePadding ++ " " ++ "undefined") := rfl

end PassportScorer
